import Mathlib

/-!
Shallow embedding of the event-driven integration layer of the
SwiftLogistics backend: the WMS line-protocol adapter
(services/wms-adapter/index.js and services/wms-adapter/server.js),
the CMS SOAP adapter (services/cms-adapter/index.js), the ROS REST
adapter (services/ros-adapter/server.js) and the shared broker client
(shared/messageBroker.js).  Pure functions model each handler; broker and
socket connectivity, HTTP outcomes and fresh tokens are passed in as
explicit parameters.  JS numbers that the verified paths never compute
with are abstracted as integers.
-/

namespace Swift

/-- JS truthiness for string-or-absent values: undefined, null and the
empty string are falsy; every other string is truthy. -/
def jsTruthy : Option String → Bool
  | none => false
  | some s => if s = "" then false else true

/-- Models the JS idiom (v or null): a falsy value becomes null. -/
def jsOrNull (v : Option String) : Option String :=
  if jsTruthy v then v else none

/-- One emitted log call, tagged by the logging channel used in the
source (debug trace, info, console.warn, console.error). -/
inductive LogLine
  | dbg (s : String)
  | inf (s : String)
  | warn (s : String)
  | err (s : String)
deriving DecidableEq

/-- Broker acknowledgement decisions a consumer can take for one
delivered message. -/
inductive BrokerAction
  | ack
  | nackRequeue
  | nackDrop
deriving DecidableEq

namespace WmsIndex

/-- The in-memory correlation map orderId to packageId, in JS Map
insertion order (services/wms-adapter/index.js, orderToPackage). -/
abbrev CorrMap := List (String × String)

/-- JS Map.set: updates an existing key in place (keeping its position)
or appends a new entry at the end. -/
def mapSet : CorrMap → String → String → CorrMap
  | [], k, v => [(k, v)]
  | (k0, v0) :: rest, k, v =>
    if k0 = k then (k0, v) :: rest else (k0, v0) :: mapSet rest k v

/-- JS Map.get (with Map.has guarding in the source). -/
def mapGet : CorrMap → String → Option String
  | [], _ => none
  | (k0, v0) :: rest, k => if k0 = k then some v0 else mapGet rest k

/-- The reverse scan in handleWmsMessage: iterate entries in insertion
order and return the first orderId whose packageId matches (the for
loop with break). -/
def reverseFind : CorrMap → String → Option String
  | [], _ => none
  | (k0, v0) :: rest, pkg => if v0 = pkg then some k0 else reverseFind rest pkg

/-- A parsed inbound WMS line (fields that the handler reads). -/
structure WmsMsg where
  type : Option String
  packageId : Option String
  orderId : Option String
deriving DecidableEq

/-- The payload built by handleWmsMessage before publishing. -/
structure WmsPayload where
  packageId : Option String
  orderId : Option String
  raw : WmsMsg
  timestamp : String
deriving DecidableEq

/-- The fixed mapping table wmsTypeToRoutingKey. -/
def wmsTypeToRoutingKey (t : String) : Option String :=
  if t = "ack" then some "wms.package.ack"
  else if t = "package_received" then some "wms.package.received"
  else if t = "package_ready" then some "wms.package.ready"
  else if t = "package_scanned" then some "wms.package.scanned"
  else if t = "package_loaded" then some "wms.package.loaded"
  else if t = "error" then some "wms.package.error"
  else none

/-- The routing key actually used: the table entry, or the default
wms.package.(t) for unknown types (table values are never empty, so the
JS or-default equals getD). -/
def wmsRoutingKeyFor (t : String) : String :=
  (wmsTypeToRoutingKey t).getD ("wms.package." ++ t)

/-- publishRoutingKey: publishes when the AMQP channel is set, otherwise
warns and silently returns (no exception reaches the caller).  A throw
from the underlying channel publish is caught and logged in the source
and is not modelled separately. -/
def publishRoutingKey (ch : Bool) (key : String) (payload : WmsPayload) :
    List (String × WmsPayload) × List LogLine :=
  if ch then ([(key, payload)], [LogLine.inf "[AMQP] published"])
  else ([], [LogLine.warn "AMQP channel not connected, cannot publish"])

/-- Result of handling one inbound WMS message: new correlation map,
events published on the broker, and log calls made. -/
structure HandleResult where
  state : CorrMap
  published : List (String × WmsPayload)
  logs : List LogLine
deriving DecidableEq

/-- handleWmsMessage (services/wms-adapter/index.js lines 74-124),
with the AMQP channel state and the timestamp passed explicitly. -/
def handleWmsMessage (ch : Bool) (st : CorrMap) (now : String) (msg : WmsMsg) :
    HandleResult :=
  let logs0 := [LogLine.dbg "<- WMS"]
  match msg.type with
  | none => ⟨st, [], logs0⟩
  | some t =>
    if t = "" then ⟨st, [], logs0⟩
    else
      let payload : WmsPayload :=
        ⟨jsOrNull msg.packageId, jsOrNull msg.orderId, msg, now⟩
      if t = "ack" then
        if jsTruthy msg.packageId && jsTruthy msg.orderId then
          let pkg := msg.packageId.getD ""
          let oid := msg.orderId.getD ""
          let st1 := mapSet st oid pkg
          let payload1 : WmsPayload :=
            { payload with packageId := msg.packageId, orderId := msg.orderId }
          let pr := publishRoutingKey ch "wms.package.ack" payload1
          ⟨st1, pr.1, logs0 ++ pr.2⟩
        else
          let pr := publishRoutingKey ch "wms.package.ack" payload
          ⟨st, pr.1, logs0 ++ pr.2⟩
      else
        let payload1 :=
          if payload.orderId.isNone && payload.packageId.isSome then
            { payload with orderId := reverseFind st (payload.packageId.getD "") }
          else payload
        let payload2 :=
          if payload1.packageId.isNone && payload1.orderId.isSome then
            match mapGet st (payload1.orderId.getD "") with
            | some p => { payload1 with packageId := some p }
            | none => payload1
          else payload1
        let pr := publishRoutingKey ch (wmsRoutingKeyFor t) payload2
        ⟨st, pr.1, logs0 ++ pr.2⟩

/-- TCP socket state seen by sendLineToWms: whether the socket object
exists, whether it is destroyed, and whether a write would succeed. -/
structure WmsSocketState where
  present : Bool
  destroyed : Bool
  writeOk : Bool
deriving DecidableEq

/-- sendLineToWms: returns false without sending when the socket is
absent or destroyed or the write throws (the throw is caught and
logged); returns true when the line was written. -/
def sendLineToWms (sock : WmsSocketState) : Bool × List LogLine :=
  if !sock.present || sock.destroyed then
    (false, [LogLine.dbg "WMS socket not connected, cannot send"])
  else if sock.writeOk then (true, [LogLine.dbg "-> WMS"])
  else (false, [LogLine.err "Error writing to WMS socket"])

/-- A parsed order.created payload (the fields the consumer reads). -/
structure OrderContent where
  orderId : Option String
  items : Option (List String)
  pickup : Option String
  delivery : Option String
  contact : Option String
  correlationId : Option String
deriving DecidableEq

/-- The receive_package command written to the WMS socket. -/
structure ReceivePackageCmd where
  orderId : String
  clientOrderRef : String
  items : List String
  pickup : Option String
  delivery : Option String
  contact : Option String
  correlationId : Option String
deriving DecidableEq

/-- Builds the receive_package command from the order.created payload,
with the JS or-defaults of the source. -/
def buildReceivePackage (content : OrderContent) : ReceivePackageCmd :=
  { orderId := content.orderId.getD ""
    clientOrderRef := content.orderId.getD ""
    items := content.items.getD []
    pickup := jsOrNull content.pickup
    delivery := jsOrNull content.delivery
    contact := jsOrNull content.contact
    correlationId := jsOrNull content.correlationId }

/-- Result of the order.created consumer for one delivered message:
the broker action taken, the command delivered to the WMS (when the
write succeeded), and the log calls made. -/
structure ConsumeResult where
  action : BrokerAction
  sent : Option ReceivePackageCmd
  logs : List LogLine
deriving DecidableEq

/-- The order.created consumer installed by connectRabbit
(services/wms-adapter/index.js lines 178-218).  A message whose body
fails to parse is modelled as parsed = none (the catch acks it). -/
def consumeOrderCreated (sock : WmsSocketState) (parsed : Option OrderContent) :
    ConsumeResult :=
  match parsed with
  | none => ⟨BrokerAction.ack, none, [LogLine.err "[AMQP] Failed to process message"]⟩
  | some content =>
    let logs0 := [LogLine.inf "[AMQP] Received order.created"]
    if jsTruthy content.orderId then
      let cmd := buildReceivePackage content
      let s := sendLineToWms sock
      if s.1 then ⟨BrokerAction.ack, some cmd, logs0 ++ s.2⟩
      else
        ⟨BrokerAction.nackRequeue, none,
          logs0 ++ s.2 ++ [LogLine.warn "[AMQP] WMS not connected - NACK and requeue message for later"]⟩
    else
      ⟨BrokerAction.ack, none,
        logs0 ++ [LogLine.warn "[AMQP] order.created missing orderId; acking and skipping"]⟩

end WmsIndex

namespace MessageBroker

/-- The shared broker client publish (shared/messageBroker.js): when the
channel is not set it throws; otherwise the outcome is that of the
underlying transport publish (whose error is rethrown). -/
def publish (channelConnected : Bool) (transport : Except String Unit) :
    Except String Unit :=
  if !channelConnected then Except.error "Message broker not connected"
  else transport

/-- Per-message logic of the shared broker client subscribe: parse the
body, run the handler, ack on success; any throw (parse or handler) is
caught and the message is nacked with requeue = false. -/
def subscribeStep (parsed : Option String) (handler : String → Except String Unit) :
    BrokerAction :=
  match parsed with
  | none => BrokerAction.nackDrop
  | some c =>
    match handler c with
    | Except.ok _ => BrokerAction.ack
    | Except.error _ => BrokerAction.nackDrop

end MessageBroker

namespace CmsAdapter

/-- The order.created fields the CMS consumer reads. -/
structure CmsOrderContent where
  orderId : Option String
  clientId : Option String
deriving DecidableEq

/-- The parsed CreateOrderResponse element (xml2js yields strings). -/
structure RawCmsResp where
  Success : String
  CmsOrderId : Option String
  BillingRef : Option String
  Message : Option String
deriving DecidableEq

/-- Structured result of callCMSCreateOrder. -/
structure CmsResult where
  success : Bool
  cmsOrderId : Option String
  billingRef : Option String
  message : Option String
deriving DecidableEq

/-- callCMSCreateOrder (services/cms-adapter/index.js lines 38-67): the
HTTP POST and XML parse outcome is passed in; a missing
CreateOrderResponse element throws Invalid SOAP response; transport
errors are rethrown. -/
def callCMSCreateOrder (httpResult : Except String (Option RawCmsResp)) :
    Except String CmsResult :=
  match httpResult with
  | Except.error e => Except.error e
  | Except.ok none => Except.error "Invalid SOAP response"
  | Except.ok (some r) =>
    Except.ok ⟨(r.Success = "true" : Bool), r.CmsOrderId, r.BillingRef, r.Message⟩

/-- Payload of the event published on cms.order.created. -/
structure CmsEventPayload where
  cmsOrderId : Option String
  billingRef : Option String
  localOrderId : Option String
  clientId : Option String
  status : String
  message : Option String
  correlationId : String
deriving DecidableEq

/-- The CMS order.created consumer (services/cms-adapter/index.js lines
83-121): on a successful parsed response it publishes one
cms.order.created event; on failure nothing is published and the error
is logged; the finally block always acks.  The fresh uuid is passed in
as freshToken. -/
def cmsConsume (parsed : Option CmsOrderContent)
    (httpResult : Except String (Option RawCmsResp)) (freshToken : String) :
    List (String × CmsEventPayload) × BrokerAction × List LogLine :=
  match parsed with
  | none => ([], BrokerAction.ack, [LogLine.err "[CMS Adapter] Failed processing order"])
  | some content =>
    match callCMSCreateOrder httpResult with
    | Except.error _ =>
      ([], BrokerAction.ack, [LogLine.err "[CMS Adapter] Failed processing order"])
    | Except.ok r =>
      if r.success then
        ([("cms.order.created",
            ⟨r.cmsOrderId, r.billingRef, content.orderId, content.clientId,
             "cms_created", r.message, freshToken⟩)],
         BrokerAction.ack, [LogLine.inf "[CMS Adapter] Published cms.order.created"])
      else ([], BrokerAction.ack, [])

end CmsAdapter

namespace RosAdapter

/-- A coordinate pair (JS numbers abstracted as integers; the verified
path never computes with them). -/
structure Coord where
  latitude : Int
  longitude : Int
deriving DecidableEq

/-- The parsed body of a POST /eta response. -/
structure RosEtaResponse where
  status : String
  distance : Int
  duration : Int
  message : String
deriving DecidableEq

/-- The value calculateETA returns on success. -/
structure EtaResult where
  distance : Int
  duration : Int
  provider : String
deriving DecidableEq

/-- ROSAdapter.calculateETA (services/ros-adapter/server.js lines
149-193): with no API key configured it throws ROS API not configured
before any request is made; otherwise the remote call outcome decides
the result, and a non-success status body throws. -/
def calculateETA (apiKey : Option String) (origin destination : Coord)
    (remote : Except String RosEtaResponse) : Except String EtaResult :=
  if !(jsTruthy apiKey) then Except.error "ROS API not configured"
  else
    match remote with
    | Except.error e => Except.error e
    | Except.ok r =>
      if r.status = "success" then
        Except.ok ⟨r.distance, r.duration, "external-ros"⟩
      else Except.error ("ROS ETA calculation failed: " ++ r.message)

end RosAdapter

namespace WmsServer

/-- The default timeout argument of sendWMSCommand
(services/wms-adapter/server.js line 103). -/
def defaultWmsTimeoutMs : Nat := 30000

/-- The pendingRequests map: requestId to the stored command. -/
abbrev PendingMap := List (Nat × String)

/-- JS Map.get on pendingRequests (keys are unique in a Map). -/
def lookupPending : PendingMap → Nat → Option String
  | [], _ => none
  | (r, c) :: rest, rid => if r = rid then some c else lookupPending rest rid

/-- JS Map.delete on pendingRequests (keys are unique in a Map, so
removing every matching entry is the same operation). -/
def removeId : PendingMap → Nat → PendingMap
  | [], _ => []
  | (r, c) :: rest, rid =>
    if r = rid then removeId rest rid else (r, c) :: removeId rest rid

/-- Adapter process state for sendWMSCommand: the pending map and the
request counter. -/
structure WmsSrvState where
  pending : PendingMap
  counter : Nat
deriving DecidableEq

/-- How a sendWMSCommand call leaves its caller. -/
inductive SendOutcome
  | pendingCreated (rid : Nat)
  | rejectedNotConnected
  | rejectedWriteError
deriving DecidableEq

/-- sendWMSCommand (services/wms-adapter/server.js lines 103-131): when
disconnected it rejects at once; otherwise it increments the counter,
stores the pending entry and writes; a synchronous write throw deletes
the entry again and rejects, so the pending map is net unchanged. -/
def sendWMSCommand (st : WmsSrvState) (isConnected : Bool) (writeOk : Bool)
    (command : String) : WmsSrvState × SendOutcome :=
  if !isConnected then (st, SendOutcome.rejectedNotConnected)
  else
    let rid := st.counter + 1
    if writeOk then
      (⟨st.pending ++ [(rid, command)], rid⟩, SendOutcome.pendingCreated rid)
    else (⟨st.pending, rid⟩, SendOutcome.rejectedWriteError)

/-- How a pending promise is settled. -/
inductive Outcome
  | resolved
  | rejectedWms (status : String)
  | rejectedTimeout
deriving DecidableEq

/-- Events that act on the pending map: a parsed response line (with a
flag for whether its data field parses as JSON), or a timeout firing. -/
inductive WmsEvent
  | reply (rid : Nat) (status : String) (dataParses : Bool)
  | timeoutFire (rid : Nat)
deriving DecidableEq

/-- One event against the pending map (handleWMSResponse lines 139-165
and the timeout callback lines 116-121).  Both guard on Map.has; the
delete precedes the resolve, so a success reply whose data fails to
parse removes the entry but settles nothing (the throw is caught by the
surrounding try). -/
def stepEvent (st : PendingMap) : WmsEvent → PendingMap × List (Nat × Outcome)
  | WmsEvent.reply rid status dataParses =>
    if (lookupPending st rid).isSome then
      let st1 := removeId st rid
      if status = "OK" then
        if dataParses then (st1, [(rid, Outcome.resolved)])
        else (st1, [])
      else (st1, [(rid, Outcome.rejectedWms status)])
    else (st, [])
  | WmsEvent.timeoutFire rid =>
    if (lookupPending st rid).isSome then
      (removeId st rid, [(rid, Outcome.rejectedTimeout)])
    else (st, [])

/-- Runs a sequence of events, collecting all settlements. -/
def runEvents (st : PendingMap) : List WmsEvent → PendingMap × List (Nat × Outcome)
  | [] => (st, [])
  | ev :: rest =>
    let p := stepEvent st ev
    let q := runEvents p.1 rest
    (q.1, p.2 ++ q.2)

/-- Whether an event addresses the given requestId. -/
def evTargets (rid : Nat) : WmsEvent → Bool
  | WmsEvent.reply r _ _ => r == rid
  | WmsEvent.timeoutFire r => r == rid

/-- The settlements recorded for one requestId. -/
def settlementsFor (rid : Nat) (outs : List (Nat × Outcome)) : List Outcome :=
  (outs.filter (fun p => p.1 == rid)).map (fun p => p.2)

end WmsServer

end Swift

namespace Swift

open WmsIndex MessageBroker CmsAdapter RosAdapter WmsServer

/-- Inserting a mapping makes it retrievable (JS Map.set then Map.get). -/
theorem mapGet_mapSet_self (m : CorrMap) (k v : String) :
    mapGet (mapSet m k v) k = some v := by
  induction m with
  | nil => simp [mapSet, mapGet]
  | cons p rest ih =>
    obtain ⟨k0, v0⟩ := p
    by_cases h : k0 = k
    · subst h; simp [mapSet, mapGet]
    · simp [mapSet, mapGet, h, ih]

/-- If no existing entry carries the package id, the reverse scan after
inserting the new mapping finds exactly the inserted order id. -/
theorem reverseFind_mapSet_fresh (m : CorrMap) (k v : String)
    (h : ∀ p ∈ m, p.2 ≠ v) :
    reverseFind (mapSet m k v) v = some k := by
  induction m with
  | nil => simp [mapSet, reverseFind]
  | cons p rest ih =>
    obtain ⟨k0, v0⟩ := p
    have hv0 : v0 ≠ v := h (k0, v0) (List.mem_cons_self _ _)
    have hrest : ∀ q ∈ rest, q.2 ≠ v := fun q hq => h q (List.mem_cons_of_mem _ hq)
    by_cases hk : k0 = k
    · subst hk; simp [mapSet, reverseFind]
    · simp [mapSet, reverseFind, hk, hv0, ih hrest]

/-- A socket that is absent or destroyed never writes the line. -/
theorem sendLineToWms_disconnected (sock : WmsSocketState)
    (h : sock.present = false ∨ sock.destroyed = true) :
    (sendLineToWms sock).1 = false := by
  rcases h with h | h <;> simp [sendLineToWms, h]

/-- After deleting a request id, looking it up fails. -/
theorem lookupPending_removeId_self (st : PendingMap) (rid : Nat) :
    lookupPending (removeId st rid) rid = none := by
  induction st with
  | nil => rfl
  | cons p rest ih =>
    obtain ⟨r, c⟩ := p
    by_cases h : r = rid
    · simp [removeId, h, ih]
    · simp [removeId, lookupPending, h, ih]

/-- Deleting one request id leaves every other id untouched. -/
theorem lookupPending_removeId_other (st : PendingMap) (r0 rid : Nat)
    (h : r0 ≠ rid) :
    lookupPending (removeId st r0) rid = lookupPending st rid := by
  induction st with
  | nil => rfl
  | cons p rest ih =>
    obtain ⟨r, c⟩ := p
    by_cases hr : r = r0
    · subst hr; simp [removeId, lookupPending, h, ih]
    · by_cases hrid : r = rid
      · subst hrid; simp [removeId, lookupPending, hr, Ne.symm h]
      · simp [removeId, lookupPending, hr, hrid, ih]

/-- Settlement filtering distributes over concatenation. -/
theorem settlementsFor_append (rid : Nat) (a b : List (Nat × Outcome)) :
    settlementsFor rid (a ++ b) = settlementsFor rid a ++ settlementsFor rid b := by
  simp [settlementsFor, List.filter_append]

/-- An absent request id stays absent across any single event, and that
event records no settlement for it. -/
theorem stepEvent_absent (st : PendingMap) (rid : Nat)
    (h : lookupPending st rid = none) (ev : WmsEvent) :
    lookupPending (stepEvent st ev).1 rid = none ∧
    settlementsFor rid (stepEvent st ev).2 = [] := by
  cases ev with
  | reply r s d =>
    cases hlk : (lookupPending st r).isSome with
    | false => simp [stepEvent, hlk, h, settlementsFor]
    | true =>
      have hne : r ≠ rid := by
        intro he; subst he; rw [h] at hlk; simp at hlk
      have hrm : lookupPending (removeId st r) rid = none :=
        (lookupPending_removeId_other st r rid hne).trans h
      have hbeq : (r == rid) = false := by simp [hne]
      by_cases hok : s = "OK"
      · cases d with
        | true => simp [stepEvent, hlk, hok, hrm, settlementsFor, hbeq]
        | false => simp [stepEvent, hlk, hok, hrm, settlementsFor]
      · simp [stepEvent, hlk, hok, hrm, settlementsFor, hbeq]
  | timeoutFire r =>
    cases hlk : (lookupPending st r).isSome with
    | false => simp [stepEvent, hlk, h, settlementsFor]
    | true =>
      have hne : r ≠ rid := by
        intro he; subst he; rw [h] at hlk; simp at hlk
      have hrm : lookupPending (removeId st r) rid = none :=
        (lookupPending_removeId_other st r rid hne).trans h
      have hbeq : (r == rid) = false := by simp [hne]
      simp [stepEvent, hlk, hrm, settlementsFor, hbeq]

/-- An absent request id stays absent across any event sequence, which
records no settlement for it. -/
theorem runEvents_absent (st : PendingMap) (rid : Nat)
    (h : lookupPending st rid = none) (evs : List WmsEvent) :
    lookupPending (runEvents st evs).1 rid = none ∧
    settlementsFor rid (runEvents st evs).2 = [] := by
  induction evs generalizing st with
  | nil => simp [runEvents, settlementsFor, h]
  | cons ev rest ih =>
    obtain ⟨h1, h2⟩ := stepEvent_absent st rid h ev
    obtain ⟨h3, h4⟩ := ih (stepEvent st ev).1 h1
    simp [runEvents, settlementsFor_append, h2, h3, h4]

/-- An event addressing a pending request removes it and records at
most one settlement for it. -/
theorem stepEvent_target_removes (st : PendingMap) (rid : Nat) (cmd : String)
    (h : lookupPending st rid = some cmd) (ev : WmsEvent)
    (htgt : evTargets rid ev = true) :
    lookupPending (stepEvent st ev).1 rid = none ∧
    (settlementsFor rid (stepEvent st ev).2).length ≤ 1 := by
  have hsome : (lookupPending st rid).isSome = true := by simp [h]
  cases ev with
  | reply r s d =>
    have hr : r = rid := by simpa [evTargets] using htgt
    subst hr
    by_cases hok : s = "OK"
    · cases d with
      | true =>
        simp [stepEvent, hsome, hok, lookupPending_removeId_self, settlementsFor]
      | false =>
        simp [stepEvent, hsome, hok, lookupPending_removeId_self, settlementsFor]
    · simp [stepEvent, hsome, hok, lookupPending_removeId_self, settlementsFor]
  | timeoutFire r =>
    have hr : r = rid := by simpa [evTargets] using htgt
    subst hr
    simp [stepEvent, hsome, lookupPending_removeId_self, settlementsFor]

/-- An event addressing a different request id neither disturbs this
pending entry nor records a settlement for it. -/
theorem stepEvent_nontarget (st : PendingMap) (rid : Nat) (ev : WmsEvent)
    (hn : evTargets rid ev = false) :
    lookupPending (stepEvent st ev).1 rid = lookupPending st rid ∧
    settlementsFor rid (stepEvent st ev).2 = [] := by
  cases ev with
  | reply r s d =>
    have hne : r ≠ rid := by simpa [evTargets] using hn
    have hbeq : (r == rid) = false := by simp [hne]
    cases hlk : (lookupPending st r).isSome with
    | false => simp [stepEvent, hlk, settlementsFor]
    | true =>
      by_cases hok : s = "OK"
      · cases d with
        | true =>
          simp [stepEvent, hlk, hok, lookupPending_removeId_other st r rid hne,
            settlementsFor, hbeq]
        | false =>
          simp [stepEvent, hlk, hok, lookupPending_removeId_other st r rid hne,
            settlementsFor]
      · simp [stepEvent, hlk, hok, lookupPending_removeId_other st r rid hne,
          settlementsFor, hbeq]
  | timeoutFire r =>
    have hne : r ≠ rid := by simpa [evTargets] using hn
    have hbeq : (r == rid) = false := by simp [hne]
    cases hlk : (lookupPending st r).isSome with
    | false => simp [stepEvent, hlk, settlementsFor]
    | true =>
      simp [stepEvent, hlk, lookupPending_removeId_other st r rid hne,
        settlementsFor, hbeq]

/-- Core lifecycle of one pending request across any event sequence:
at most one settlement; removed after any addressing event; untouched
and unsettled when no event addresses it. -/
theorem runEvents_pending (st : PendingMap) (evs : List WmsEvent) (rid : Nat)
    (cmd : String) (h : lookupPending st rid = some cmd) :
    (settlementsFor rid (runEvents st evs).2).length ≤ 1 ∧
    (evs.any (evTargets rid) = true →
       lookupPending (runEvents st evs).1 rid = none) ∧
    (evs.any (evTargets rid) = false →
       lookupPending (runEvents st evs).1 rid = some cmd ∧
       settlementsFor rid (runEvents st evs).2 = []) := by
  induction evs generalizing st with
  | nil => simp [runEvents, settlementsFor, h]
  | cons ev rest ih =>
    by_cases htgt : evTargets rid ev = true
    · obtain ⟨h1, h2⟩ := stepEvent_target_removes st rid cmd h ev htgt
      obtain ⟨h3, h4⟩ := runEvents_absent (stepEvent st ev).1 rid h1 rest
      refine ⟨?_, fun _ => ?_, fun hall => ?_⟩
      · simp [runEvents, settlementsFor_append, h4]
        exact h2
      · simp [runEvents, h3]
      · simp [List.any_cons, htgt] at hall
    · have hnf : evTargets rid ev = false := by
        cases hb : evTargets rid ev with
        | false => rfl
        | true => exact absurd hb htgt
      obtain ⟨h1, h2⟩ := stepEvent_nontarget st rid ev hnf
      have h1s : lookupPending (stepEvent st ev).1 rid = some cmd := h1.trans h
      obtain ⟨ih1, ih2, ih3⟩ := ih (stepEvent st ev).1 h1s
      refine ⟨?_, fun hany => ?_, fun hany => ?_⟩
      · simp [runEvents, settlementsFor_append, h2, ih1]
      · have hrest : rest.any (evTargets rid) = true := by
          simpa [List.any_cons, hnf] using hany
        simp [runEvents]
        exact ih2 hrest
      · have hrest : rest.any (evTargets rid) = false := by
          simpa [List.any_cons, hnf] using hany
        obtain ⟨a, b⟩ := ih3 hrest
        refine ⟨by simp [runEvents]; exact a, ?_⟩
        simp [runEvents, settlementsFor_append, h2, b]

/-- Claim C3, counterexample: with the channel unset, the shared broker
client publish raises a Message broker not connected exception instead
of failing silently, so the claim as stated is false for it. -/
theorem c3_shared_publish_raises_when_disconnected :
    MessageBroker.publish false (Except.ok ()) =
      Except.error "Message broker not connected" := rfl

/-- Claim C3 (amended): when not connected, the line-protocol adapter
local publish helper fails silently with a logged warning and publishes
nothing, while the shared broker client publish raises a Message broker
not connected exception to its caller. -/
theorem c3_publish_disconnected_behavior :
    (∀ (key : String) (payload : WmsPayload),
       publishRoutingKey false key payload =
         ([], [LogLine.warn "AMQP channel not connected, cannot publish"])) ∧
    (∀ transport : Except String Unit,
       MessageBroker.publish false transport =
         Except.error "Message broker not connected") := by
  exact ⟨fun key payload => rfl, fun transport => rfl⟩

/-- Claim C6, counterexample: with no API credential, calculateETA at
concrete coordinates raises the ROS API not configured failure even
when the remote would have answered, so no call returns a distance
value and the claimed haversine fallback does not exist. -/
theorem c6_eta_without_key_raises :
    RosAdapter.calculateETA none ⟨6, 79⟩ ⟨7, 80⟩
        (Except.ok ⟨"success", 42, 100, ""⟩) =
      Except.error "ROS API not configured" := rfl

/-- Claim C6 (amended): with no API credential configured (absent or
empty), every call to calculateETA deterministically raises the same
ROS API not configured failure, for every pair of coordinates and
independently of the remote outcome; in particular any two calls agree. -/
theorem c6_eta_without_key_deterministic :
    (∀ (o d : Coord) (r : Except String RosEtaResponse),
       calculateETA none o d r = Except.error "ROS API not configured") ∧
    (∀ (o d : Coord) (r : Except String RosEtaResponse),
       calculateETA (some "") o d r = Except.error "ROS API not configured") ∧
    (∀ (o d : Coord) (r1 r2 : Except String RosEtaResponse),
       calculateETA none o d r1 = calculateETA none o d r2) := by
  refine ⟨fun o d r => rfl, fun o d r => ?_, fun o d r1 r2 => rfl⟩
  simp [calculateETA, jsTruthy]

/-- Claim C7: for an order.created message whose payload lacks a truthy
orderId, the consumer acks and drops it, sends no WMS command, and logs
a warning after the inbound info line. -/
theorem c7_missing_orderid_ack_and_drop (sock : WmsSocketState)
    (content : OrderContent) (h : jsTruthy content.orderId = false) :
    (consumeOrderCreated sock (some content)).action = BrokerAction.ack ∧
    (consumeOrderCreated sock (some content)).sent = none ∧
    (consumeOrderCreated sock (some content)).logs =
      [LogLine.inf "[AMQP] Received order.created",
       LogLine.warn "[AMQP] order.created missing orderId; acking and skipping"] := by
  simp [consumeOrderCreated, h]

/-- Witness for claim C7 at a concrete message without an orderId. -/
theorem c7_missing_orderid_ack_and_drop_witness :
    (consumeOrderCreated ⟨true, false, true⟩
        (some ⟨none, none, none, none, none, none⟩)).action = BrokerAction.ack ∧
    (consumeOrderCreated ⟨true, false, true⟩
        (some ⟨none, none, none, none, none, none⟩)).sent = none ∧
    (consumeOrderCreated ⟨true, false, true⟩
        (some ⟨none, none, none, none, none, none⟩)).logs =
      [LogLine.inf "[AMQP] Received order.created",
       LogLine.warn "[AMQP] order.created missing orderId; acking and skipping"] :=
  c7_missing_orderid_ack_and_drop ⟨true, false, true⟩
    ⟨none, none, none, none, none, none⟩ (by decide)

/-- Claim C9, counterexample: handling a parsed line without a type
field publishes nothing and leaves the map unchanged, but it does emit
a log call (the unconditional inbound debug trace), so the claim that
no log line is written is false at this concrete input. -/
theorem c9_typeless_message_still_logs :
    handleWmsMessage true [] "ts" ⟨none, some "pkg-1", some "o-1"⟩ =
      ⟨[], [], [LogLine.dbg "<- WMS"]⟩ ∧
    ([LogLine.dbg "<- WMS"] : List LogLine) ≠ [] :=
  ⟨rfl, by decide⟩

/-- Claim C9 (amended): a parsed WMS line whose type field is missing
(or empty) is ignored: no event is published, the correlation map is
unchanged, and the only log call is the inbound debug trace emitted for
every message. -/
theorem c9_typeless_message_ignored (ch : Bool) (st : CorrMap) (now : String)
    (m : WmsMsg) (h : jsTruthy m.type = false) :
    handleWmsMessage ch st now m = ⟨st, [], [LogLine.dbg "<- WMS"]⟩ := by
  cases hm : m.type with
  | none => simp [handleWmsMessage, hm]
  | some t =>
    have ht : t = "" := by
      by_cases h0 : t = ""
      · exact h0
      · rw [hm] at h; simp [jsTruthy, h0] at h
    subst ht
    simp [handleWmsMessage, hm]

/-- Witness for claim C9 (amended) at a concrete typeless message. -/
theorem c9_typeless_message_ignored_witness :
    handleWmsMessage false [("o-1", "pkg-1")] "t0" ⟨none, some "pkg-2", none⟩ =
      ⟨[("o-1", "pkg-1")], [], [LogLine.dbg "<- WMS"]⟩ :=
  c9_typeless_message_ignored false [("o-1", "pkg-1")] "t0"
    ⟨none, some "pkg-2", none⟩ (by decide)

/-- Claim C10: the shared broker client subscribe acknowledges exactly
when the handler completes without throwing; every failure (parse or
handler throw) is nacked without requeue, and no other action exists on
this path. -/
theorem c10_subscribe_ack_iff_handler_ok (parsed : Option String)
    (handler : String → Except String Unit) :
    (subscribeStep parsed handler = BrokerAction.ack ↔
       ∃ c, parsed = some c ∧ handler c = Except.ok ()) ∧
    subscribeStep parsed handler ≠ BrokerAction.nackRequeue ∧
    (subscribeStep parsed handler = BrokerAction.ack ∨
       subscribeStep parsed handler = BrokerAction.nackDrop) := by
  cases parsed with
  | none => simp [subscribeStep]
  | some c =>
    cases h : handler c with
    | ok u =>
      cases u
      refine ⟨⟨fun _ => ⟨c, rfl, h⟩, fun _ => ?_⟩, ?_, ?_⟩ <;>
        simp [subscribeStep, h]
    | error e =>
      refine ⟨⟨fun hh => ?_, fun ⟨c2, hc2, hok⟩ => ?_⟩, ?_, ?_⟩
      · simp [subscribeStep, h] at hh
      · cases hc2; rw [h] at hok; cases hok
      · simp [subscribeStep, h]
      · simp [subscribeStep, h]

/-- Witness for claim C10 at a concrete message and handler. -/
theorem c10_subscribe_ack_iff_handler_ok_witness :
    subscribeStep (some "m") (fun _ => Except.ok ()) = BrokerAction.ack ∧
    subscribeStep (some "m") (fun _ => Except.ok ()) ≠ BrokerAction.nackRequeue :=
  ⟨(c10_subscribe_ack_iff_handler_ok (some "m") (fun _ => Except.ok ())).1.mpr
      ⟨"m", rfl, rfl⟩,
   (c10_subscribe_ack_iff_handler_ok (some "m") (fun _ => Except.ok ())).2.1⟩

/-- Claim C2: for an order.created message carrying an orderId, the
consumer acks exactly when the line was written to the WMS socket; when
the socket is disconnected or the write fails it nacks with requeue and
delivers nothing; an absent or destroyed socket always fails the send. -/
theorem c2_requeue_when_wms_unavailable (sock : WmsSocketState)
    (content : OrderContent) (h : jsTruthy content.orderId = true) :
    ((consumeOrderCreated sock (some content)).action = BrokerAction.ack ↔
       (sendLineToWms sock).1 = true) ∧
    ((sendLineToWms sock).1 = false →
       (consumeOrderCreated sock (some content)).action = BrokerAction.nackRequeue ∧
       (consumeOrderCreated sock (some content)).sent = none) ∧
    ((sendLineToWms sock).1 = true →
       (consumeOrderCreated sock (some content)).action = BrokerAction.ack ∧
       (consumeOrderCreated sock (some content)).sent =
         some (buildReceivePackage content)) ∧
    (sock.present = false ∨ sock.destroyed = true →
       (sendLineToWms sock).1 = false) := by
  refine ⟨?_, ?_, ?_, sendLineToWms_disconnected sock⟩ <;>
    cases hs : (sendLineToWms sock).1 <;>
      simp [consumeOrderCreated, h, hs]

/-- Witness for claim C2: with a disconnected socket the concrete
message is nacked with requeue and nothing is sent; with a healthy
socket it is acked and the command is delivered. -/
theorem c2_requeue_when_wms_unavailable_witness :
    ((consumeOrderCreated ⟨false, false, true⟩
        (some ⟨some "o123", none, none, none, none, none⟩)).action =
      BrokerAction.nackRequeue ∧
     (consumeOrderCreated ⟨false, false, true⟩
        (some ⟨some "o123", none, none, none, none, none⟩)).sent = none) ∧
    ((consumeOrderCreated ⟨true, false, true⟩
        (some ⟨some "o123", none, none, none, none, none⟩)).action =
      BrokerAction.ack ∧
     (consumeOrderCreated ⟨true, false, true⟩
        (some ⟨some "o123", none, none, none, none, none⟩)).sent =
      some (buildReceivePackage ⟨some "o123", none, none, none, none, none⟩)) :=
  ⟨(c2_requeue_when_wms_unavailable ⟨false, false, true⟩
      ⟨some "o123", none, none, none, none, none⟩ (by decide)).2.1 (by decide),
   (c2_requeue_when_wms_unavailable ⟨true, false, true⟩
      ⟨some "o123", none, none, none, none, none⟩ (by decide)).2.2.1 (by decide)⟩

/-- Claim C4, counterexample: an event of the unknown type custom_event
is republished on wms.package.custom_event, not on the claimed key
external.package.custom_event. -/
theorem c4_unknown_type_uses_wms_prefix :
    (handleWmsMessage true [] "ts"
        ⟨some "custom_event", some "pkg-1", none⟩).published.map Prod.fst =
      ["wms.package.custom_event"] ∧
    "wms.package.custom_event" ≠ "external.package.custom_event" :=
  ⟨rfl, by decide⟩

/-- Claim C4 (amended): every inbound WMS event with a nonempty type is
republished (not dropped) on exactly one routing key; unknown types map
to the deterministic default wms.package.(type), and known types map
through the fixed table to the wms.package.* keys. -/
theorem c4_event_type_routing (st : CorrMap) (now : String) (m : WmsMsg)
    (t : String) (hm : m.type = some t) (ht : t ≠ "") (ha : t ≠ "ack") :
    (handleWmsMessage true st now m).published.map Prod.fst =
      [wmsRoutingKeyFor t] ∧
    (wmsTypeToRoutingKey t = none →
       wmsRoutingKeyFor t = "wms.package." ++ t) ∧
    wmsTypeToRoutingKey "package_received" = some "wms.package.received" ∧
    wmsTypeToRoutingKey "package_ready" = some "wms.package.ready" ∧
    wmsTypeToRoutingKey "package_scanned" = some "wms.package.scanned" ∧
    wmsTypeToRoutingKey "package_loaded" = some "wms.package.loaded" ∧
    wmsTypeToRoutingKey "error" = some "wms.package.error" ∧
    wmsTypeToRoutingKey "ack" = some "wms.package.ack" := by
  refine ⟨?_, ?_, by decide, by decide, by decide, by decide, by decide, by decide⟩
  · simp [handleWmsMessage, hm, ht, ha, publishRoutingKey]
  · intro h0; simp [wmsRoutingKeyFor, h0]

/-- Witness for claim C4 (amended) at a concrete unknown event type. -/
theorem c4_event_type_routing_witness :
    (handleWmsMessage true [] "ts"
        ⟨some "mystery", none, some "o-1"⟩).published.map Prod.fst =
      [wmsRoutingKeyFor "mystery"] ∧
    wmsRoutingKeyFor "mystery" = "wms.package." ++ "mystery" :=
  ⟨(c4_event_type_routing [] "ts" ⟨some "mystery", none, some "o-1"⟩ "mystery"
      rfl (by decide) (by decide)).1,
   (c4_event_type_routing [] "ts" ⟨some "mystery", none, some "o-1"⟩ "mystery"
      rfl (by decide) (by decide)).2.1 (by decide)⟩

/-- Claim C5, counterexample: on a successful SOAP response the CMS
consumer publishes on routing key cms.order.created, not on the claimed
key billing.order.created. -/
theorem c5_publishes_cms_order_created_key :
    (cmsConsume (some ⟨some "o123", some "c1"⟩)
        (Except.ok (some ⟨"true", some "cms-9", some "bill-7", some "Order created"⟩))
        "tok-1").1.map Prod.fst = ["cms.order.created"] ∧
    "cms.order.created" ≠ "billing.order.created" :=
  ⟨rfl, by decide⟩

/-- Claim C5 (amended): when the parsed SOAP response is successful the
CMS consumer publishes exactly one cms.order.created event whose
payload carries the internal order id, the external CMS order id and
the freshly generated correlation token, and acks; when the response is
unsuccessful or the call fails, nothing is published and the message is
still acked. -/
theorem c5_cms_publish_on_success (content : CmsOrderContent) (r : RawCmsResp)
    (tok : String) (hs : r.Success = "true") :
    (cmsConsume (some content) (Except.ok (some r)) tok).1 =
      [("cms.order.created",
        ⟨r.CmsOrderId, r.BillingRef, content.orderId, content.clientId,
         "cms_created", r.Message, tok⟩)] ∧
    (cmsConsume (some content) (Except.ok (some r)) tok).2.1 = BrokerAction.ack ∧
    (∀ r2 : RawCmsResp, r2.Success ≠ "true" →
       (cmsConsume (some content) (Except.ok (some r2)) tok).1 = [] ∧
       (cmsConsume (some content) (Except.ok (some r2)) tok).2.1 =
         BrokerAction.ack) ∧
    (∀ e : String,
       (cmsConsume (some content) (Except.error e) tok).1 = [] ∧
       (cmsConsume (some content) (Except.error e) tok).2.1 =
         BrokerAction.ack) := by
  refine ⟨?_, ?_, ?_, fun e => ⟨rfl, rfl⟩⟩
  · simp [cmsConsume, callCMSCreateOrder, hs]
  · simp [cmsConsume, callCMSCreateOrder, hs]
  · intro r2 h2
    constructor <;> simp [cmsConsume, callCMSCreateOrder, h2]

/-- Witness for claim C5 (amended) at a concrete successful response. -/
theorem c5_cms_publish_on_success_witness :
    (cmsConsume (some ⟨some "o123", some "c1"⟩)
        (Except.ok (some ⟨"true", some "cms-9", some "bill-7", some "ok"⟩))
        "tok-1").1 =
      [("cms.order.created",
        ⟨some "cms-9", some "bill-7", some "o123", some "c1",
         "cms_created", some "ok", "tok-1"⟩)] ∧
    (cmsConsume (some ⟨some "o123", some "c1"⟩)
        (Except.ok (some ⟨"true", some "cms-9", some "bill-7", some "ok"⟩))
        "tok-1").2.1 = BrokerAction.ack :=
  ⟨(c5_cms_publish_on_success ⟨some "o123", some "c1"⟩
      ⟨"true", some "cms-9", some "bill-7", some "ok"⟩ "tok-1" rfl).1,
   (c5_cms_publish_on_success ⟨some "o123", some "c1"⟩
      ⟨"true", some "cms-9", some "bill-7", some "ok"⟩ "tok-1" rfl).2.1⟩

/-- Claim C1: an ack carrying both ids records orderId to packageId in
the correlation map; afterwards an event carrying only that packageId
is republished with the orderId filled in from the map, and an event
carrying only that orderId is republished with the packageId filled in
(the packageId freshness hypothesis reflects that the reverse scan
returns the first matching entry in insertion order). -/
theorem c1_correlation_fill_in (st : CorrMap) (now1 now2 now3 : String)
    (pkg oid t : String) (hp : pkg ≠ "") (ho : oid ≠ "") (ht : t ≠ "")
    (ha : t ≠ "ack") (hfresh : ∀ p ∈ st, p.2 ≠ pkg) :
    mapGet (handleWmsMessage true st now1
        ⟨some "ack", some pkg, some oid⟩).state oid = some pkg ∧
    ((handleWmsMessage true
        (handleWmsMessage true st now1 ⟨some "ack", some pkg, some oid⟩).state
        now2 ⟨some t, some pkg, none⟩).published.map
          (fun q => (q.1, q.2.packageId, q.2.orderId))) =
      [(wmsRoutingKeyFor t, some pkg, some oid)] ∧
    ((handleWmsMessage true
        (handleWmsMessage true st now1 ⟨some "ack", some pkg, some oid⟩).state
        now3 ⟨some t, none, some oid⟩).published.map
          (fun q => (q.1, q.2.packageId, q.2.orderId))) =
      [(wmsRoutingKeyFor t, some pkg, some oid)] := by
  have hackst : (handleWmsMessage true st now1
      ⟨some "ack", some pkg, some oid⟩).state = mapSet st oid pkg := by
    simp [handleWmsMessage, jsTruthy, hp, ho, publishRoutingKey]
  have hrf : reverseFind (mapSet st oid pkg) pkg = some oid :=
    reverseFind_mapSet_fresh st oid pkg hfresh
  have hmg : mapGet (mapSet st oid pkg) oid = some pkg :=
    mapGet_mapSet_self st oid pkg
  rw [hackst]
  refine ⟨hmg, ?_, ?_⟩
  · simp [handleWmsMessage, jsTruthy, jsOrNull, publishRoutingKey,
      hp, ht, ha, hrf]
  · simp [handleWmsMessage, jsTruthy, jsOrNull, publishRoutingKey,
      ho, ht, ha, hmg]

/-- Witness for claim C1 on the spec scenario: ack for pkg-ABCD and
o123, then a package_ready carrying only the packageId and an event
carrying only the orderId. -/
theorem c1_correlation_fill_in_witness :
    mapGet (handleWmsMessage true [] "t1"
        ⟨some "ack", some "pkg-ABCD", some "o123"⟩).state "o123" =
      some "pkg-ABCD" ∧
    ((handleWmsMessage true
        (handleWmsMessage true [] "t1"
          ⟨some "ack", some "pkg-ABCD", some "o123"⟩).state
        "t2" ⟨some "package_ready", some "pkg-ABCD", none⟩).published.map
          (fun q => (q.1, q.2.packageId, q.2.orderId))) =
      [(wmsRoutingKeyFor "package_ready", some "pkg-ABCD", some "o123")] ∧
    ((handleWmsMessage true
        (handleWmsMessage true [] "t1"
          ⟨some "ack", some "pkg-ABCD", some "o123"⟩).state
        "t3" ⟨some "package_ready", none, some "o123"⟩).published.map
          (fun q => (q.1, q.2.packageId, q.2.orderId))) =
      [(wmsRoutingKeyFor "package_ready", some "pkg-ABCD", some "o123")] :=
  c1_correlation_fill_in [] "t1" "t2" "t3" "pkg-ABCD" "o123" "package_ready"
    (by decide) (by decide) (by decide) (by decide) (by simp)

/-- Claim C8, counterexample: a matching success reply whose data field
does not parse removes the pending record yet settles nothing - the
delete precedes the resolve and the parse throw is caught - so the
claim that a matching reply settles the caller promise is false here. -/
theorem c8_reply_can_remove_without_settling :
    stepEvent [(1, "CRT_SHP")] (WmsEvent.reply 1 "OK" false) = ([], []) ∧
    (([], []) : PendingMap × List (Nat × Outcome)) ≠
      ([], [(1, Outcome.resolved)]) :=
  ⟨rfl, by decide⟩

/-- Claim C8 (amended): a pending request is removed at most once and
settled at most once across any event sequence: the first matching
reply or timeout removes it, later events leave it removed and settle
nothing; an untargeted entry survives unchanged.  A success reply with
parseable data resolves, an error-status reply rejects, the timeout
rejects with a timeout error, and a success reply with unparseable data
removes the record without settling the promise.  A reply for an absent
id has no effect, and the timeout default is 30000 ms. -/
theorem c8_pending_request_lifecycle (st : PendingMap) (evs : List WmsEvent)
    (rid : Nat) (cmd : String) (h : lookupPending st rid = some cmd) :
    (settlementsFor rid (runEvents st evs).2).length ≤ 1 ∧
    (evs.any (evTargets rid) = true →
       lookupPending (runEvents st evs).1 rid = none) ∧
    (evs.any (evTargets rid) = false →
       lookupPending (runEvents st evs).1 rid = some cmd ∧
       settlementsFor rid (runEvents st evs).2 = []) ∧
    (stepEvent st (WmsEvent.reply rid "OK" true) =
       (removeId st rid, [(rid, Outcome.resolved)])) ∧
    (∀ status, status ≠ "OK" →
       stepEvent st (WmsEvent.reply rid status true) =
         (removeId st rid, [(rid, Outcome.rejectedWms status)])) ∧
    (stepEvent st (WmsEvent.reply rid "OK" false) = (removeId st rid, [])) ∧
    (stepEvent st (WmsEvent.timeoutFire rid) =
       (removeId st rid, [(rid, Outcome.rejectedTimeout)])) ∧
    (∀ (st2 : PendingMap) (status : String) (d : Bool),
       lookupPending st2 rid = none →
       stepEvent st2 (WmsEvent.reply rid status d) = (st2, [])) ∧
    defaultWmsTimeoutMs = 30000 := by
  have hsome : (lookupPending st rid).isSome = true := by simp [h]
  obtain ⟨g1, g2, g3⟩ := runEvents_pending st evs rid cmd h
  refine ⟨g1, g2, g3, ?_, ?_, ?_, ?_, ?_, rfl⟩
  · simp [stepEvent, hsome]
  · intro status hne; simp [stepEvent, hsome, hne]
  · simp [stepEvent, hsome]
  · simp [stepEvent, hsome]
  · intro st2 status d h2; simp [stepEvent, h2]

/-- Witness for claim C8 (amended): a pending entry created by
sendWMSCommand, then a matching reply followed by a late timeout and a
duplicate reply: exactly one settlement and the entry stays removed. -/
theorem c8_pending_request_lifecycle_witness :
    (settlementsFor 1 (runEvents
        (sendWMSCommand ⟨[], 0⟩ true true "CRT_SHP").1.pending
        [WmsEvent.reply 1 "OK" true, WmsEvent.timeoutFire 1,
         WmsEvent.reply 1 "OK" true]).2).length ≤ 1 ∧
    lookupPending (runEvents
        (sendWMSCommand ⟨[], 0⟩ true true "CRT_SHP").1.pending
        [WmsEvent.reply 1 "OK" true, WmsEvent.timeoutFire 1,
         WmsEvent.reply 1 "OK" true]).1 1 = none :=
  ⟨(c8_pending_request_lifecycle
      (sendWMSCommand ⟨[], 0⟩ true true "CRT_SHP").1.pending
      [WmsEvent.reply 1 "OK" true, WmsEvent.timeoutFire 1,
       WmsEvent.reply 1 "OK" true] 1 "CRT_SHP" (by decide)).1,
   (c8_pending_request_lifecycle
      (sendWMSCommand ⟨[], 0⟩ true true "CRT_SHP").1.pending
      [WmsEvent.reply 1 "OK" true, WmsEvent.timeoutFire 1,
       WmsEvent.reply 1 "OK" true] 1 "CRT_SHP" (by decide)).2.1 (by decide)⟩

end Swift
